import Mathlib

/-!
Shallow embedding of `generate_icon.py`.

The renderer `create_matrix_icon_pixmap` is modelled as the exact ordered
trace of Qt painting commands the source issues on its `QPainter`, together
with the pixmap dimensions.  The two packagers `create_ico_file` and
`create_icns_file` are modelled as functions from an environment of optional
capabilities (Pillow importable, `iconutil` on the PATH, the external
conversion exiting zero, save calls raising) to the returned boolean plus the
ordered trace of observable I/O effects.  A `savePng` / `saveIco` effect
records that the corresponding `.save` call was invoked; when the
environment says that call raises, the effect is still in the trace (the
call happened) and is followed by the `except` branch's printed message.
-/

/-- An RGB colour, as `QColor(r, g, b)` in the source. -/
structure QColor where
  r : Nat
  g : Nat
  b : Nat
  deriving DecidableEq, Repr

/-- One Qt painting command, in the order the source issues them. -/
inductive DrawOp where
  | fill (c : QColor)
  | setRenderHintAntialiasing
  | setPen (c : QColor)
  | setBrushNone
  | setBrush (c : QColor)
  | drawRect (x y w h : Int)
  | drawLine (x1 y1 x2 y2 : Int)
  | drawEllipse (x y w h : Int)
  deriving DecidableEq, Repr

/-- A `QPixmap`: square canvas dimensions plus the trace of painting
commands executed on it.  Coordinates are `Int`, as Python integers. -/
structure Pixmap where
  width : Nat
  height : Nat
  ops : List DrawOp
  deriving DecidableEq, Repr

/-- `border_width = max(2, size // 16)` (line 32 of the source; the same
expression is reused as `dot_size` on line 47). -/
def border_width (size : Nat) : Nat := max 2 (size / 16)

/-- `create_matrix_icon_pixmap(size)` (source lines 21-70), as the trace of
painter calls it performs: black fill, antialiasing hint, green border
rectangle inset by `border_width`, then (nested under `size >= 32`) the
diagonals for `size >= 48`, the centre dot, and the corner brackets for
`size >= 64`, in source order. -/
def create_matrix_icon_pixmap (size : Nat) : Pixmap :=
  let s : Int := size
  let bw : Int := border_width size
  let header : List DrawOp :=
    [DrawOp.fill ⟨0, 0, 0⟩,
     DrawOp.setRenderHintAntialiasing,
     DrawOp.setPen ⟨0, 255, 65⟩,
     DrawOp.setBrushNone,
     DrawOp.drawRect bw bw (s - bw * 2) (s - bw * 2)]
  let inner : List DrawOp :=
    if 32 ≤ size then
      (if 48 ≤ size then
        let margin : Int := (size / 8 : Nat)
        [DrawOp.setPen ⟨0, 255, 65⟩,
         DrawOp.drawLine margin margin (s - margin) (s - margin),
         DrawOp.drawLine (s - margin) margin margin (s - margin)]
      else []) ++
      (let center : Int := (size / 2 : Nat)
       let dot_size : Int := (max 2 (size / 16) : Nat)
       [DrawOp.setBrush ⟨0, 255, 65⟩,
        DrawOp.drawEllipse (center - dot_size) (center - dot_size)
          (dot_size * 2) (dot_size * 2)]) ++
      (if 64 ≤ size then
        let corner_size : Int := (size / 4 : Nat)
        let margin : Int := (size / 16 : Nat)
        [DrawOp.setPen ⟨0, 200, 50⟩,
         DrawOp.drawLine margin margin corner_size margin,
         DrawOp.drawLine margin margin margin corner_size,
         DrawOp.drawLine (s - margin) margin (s - corner_size) margin,
         DrawOp.drawLine (s - margin) margin (s - margin) corner_size,
         DrawOp.drawLine margin (s - margin) corner_size (s - margin),
         DrawOp.drawLine margin (s - margin) margin (s - corner_size),
         DrawOp.drawLine (s - margin) (s - margin) (s - corner_size) (s - margin),
         DrawOp.drawLine (s - margin) (s - margin) (s - margin) (s - corner_size)]
      else [])
    else []
  { width := size, height := size, ops := header ++ inner }

/-- Whether a painting command is a `drawLine`. -/
def isLineOp : DrawOp → Bool
  | DrawOp.drawLine _ _ _ _ => true
  | _ => false

/-- Whether a painting command is a `drawEllipse`. -/
def isEllipseOp : DrawOp → Bool
  | DrawOp.drawEllipse _ _ _ _ => true
  | _ => false

/-- The `drawLine` commands of a trace executed while the current pen colour
is `c`, tracking the pen state through `setPen` commands (first argument:
the pen colour in force at the start of the trace). -/
def linesWithPen : QColor → QColor → List DrawOp → List DrawOp
  | _, _, [] => []
  | _, c, DrawOp.setPen c2 :: rest => linesWithPen c2 c rest
  | cur, c, DrawOp.drawLine x1 y1 x2 y2 :: rest =>
      if cur = c then DrawOp.drawLine x1 y1 x2 y2 :: linesWithPen cur c rest
      else linesWithPen cur c rest
  | cur, c, _ :: rest => linesWithPen cur c rest

/-- The lines of a pixmap's trace painted with pen colour `c` (Qt's default
pen is black). -/
def penLines (p : Pixmap) (c : QColor) : List DrawOp :=
  linesWithPen ⟨0, 0, 0⟩ c p.ops

/-- Length of an axis-aligned `drawLine` command (Manhattan length, which
coincides with the geometric length for horizontal and vertical lines). -/
def lineLength : DrawOp → Nat
  | DrawOp.drawLine x1 y1 x2 y2 => (x2 - x1).natAbs + (y2 - y1).natAbs
  | _ => 0

/-- C3: for every size ≥ 1 the renderer strokes the square border as a
single rectangle whose thickness parameter is `border_width size =
max 2 (size / 16)`, inset by that same `border_width` from every edge
(x = y = border_width, and x + w = y + h = size - border_width); the
parameter is 2 at size 16 and 16 at size 256. -/
theorem border_rect_uses_border_width (size : Nat) (h : 1 ≤ size) :
    DrawOp.drawRect ((border_width size : Nat) : Int) ((border_width size : Nat) : Int)
        ((size : Int) - ((border_width size : Nat) : Int) * 2)
        ((size : Int) - ((border_width size : Nat) : Int) * 2)
      ∈ (create_matrix_icon_pixmap size).ops ∧
    border_width 16 = 2 ∧ border_width 256 = 16 := by
  refine ⟨?_, by decide, by decide⟩
  simp [create_matrix_icon_pixmap]

/-- Witness for C3, at size 16 (border rectangle drawn at inset 2). -/
theorem border_rect_uses_border_width_witness :
    1 ≤ 16 ∧
    (DrawOp.drawRect ((border_width 16 : Nat) : Int) ((border_width 16 : Nat) : Int)
        (((16 : Nat) : Int) - ((border_width 16 : Nat) : Int) * 2)
        (((16 : Nat) : Int) - ((border_width 16 : Nat) : Int) * 2)
      ∈ (create_matrix_icon_pixmap 16).ops ∧
    border_width 16 = 2 ∧ border_width 256 = 16) :=
  ⟨by decide, border_rect_uses_border_width 16 (by decide)⟩

/-- C6: for every size ≥ 1 the renderer returns a pixmap of exactly
size × size pixels, and for every size < 32 the whole trace is the
background fill plus the border strokes only — no dot, diagonal or
corner-bracket command. -/
theorem render_size_and_small_sizes_border_only (size : Nat) (h : 1 ≤ size) :
    (create_matrix_icon_pixmap size).width = size ∧
    (create_matrix_icon_pixmap size).height = size ∧
    (size < 32 →
      (create_matrix_icon_pixmap size).ops =
        [DrawOp.fill ⟨0, 0, 0⟩,
         DrawOp.setRenderHintAntialiasing,
         DrawOp.setPen ⟨0, 255, 65⟩,
         DrawOp.setBrushNone,
         DrawOp.drawRect ((border_width size : Nat) : Int) ((border_width size : Nat) : Int)
           ((size : Int) - ((border_width size : Nat) : Int) * 2)
           ((size : Int) - ((border_width size : Nat) : Int) * 2)]) := by
  refine ⟨rfl, rfl, fun hlt => ?_⟩
  have h32 : ¬ 32 ≤ size := by omega
  simp [create_matrix_icon_pixmap, h32]

/-- Witness for C6, at size 16 (16 × 16 pixmap, border-only trace). -/
theorem render_size_and_small_sizes_border_only_witness :
    1 ≤ 16 ∧
    ((create_matrix_icon_pixmap 16).width = 16 ∧
    (create_matrix_icon_pixmap 16).height = 16 ∧
    (16 < 32 →
      (create_matrix_icon_pixmap 16).ops =
        [DrawOp.fill ⟨0, 0, 0⟩,
         DrawOp.setRenderHintAntialiasing,
         DrawOp.setPen ⟨0, 255, 65⟩,
         DrawOp.setBrushNone,
         DrawOp.drawRect ((border_width 16 : Nat) : Int) ((border_width 16 : Nat) : Int)
           (((16 : Nat) : Int) - ((border_width 16 : Nat) : Int) * 2)
           (((16 : Nat) : Int) - ((border_width 16 : Nat) : Int) * 2)])) :=
  ⟨by decide, render_size_and_small_sizes_border_only 16 (by decide)⟩

/-- C10: at sizes 1, 2 and 3 the border inset is still 2, so the border
rectangle is issued with negative width and height (size - 4 < 0), yet the
renderer is total there: it returns a size × size pixmap containing that
degenerate rectangle command, raising no error. -/
theorem tiny_sizes_render_total :
    ((create_matrix_icon_pixmap 1).width = 1 ∧ (create_matrix_icon_pixmap 1).height = 1 ∧
      DrawOp.drawRect 2 2 (-3) (-3) ∈ (create_matrix_icon_pixmap 1).ops ∧
      ((1 : Int) - 4 < 0)) ∧
    ((create_matrix_icon_pixmap 2).width = 2 ∧ (create_matrix_icon_pixmap 2).height = 2 ∧
      DrawOp.drawRect 2 2 (-2) (-2) ∈ (create_matrix_icon_pixmap 2).ops ∧
      ((2 : Int) - 4 < 0)) ∧
    ((create_matrix_icon_pixmap 3).width = 3 ∧ (create_matrix_icon_pixmap 3).height = 3 ∧
      DrawOp.drawRect 2 2 (-1) (-1) ∈ (create_matrix_icon_pixmap 3).ops ∧
      ((3 : Int) - 4 < 0)) := by
  decide

/-- C5: the centre dot (the unique `drawEllipse`) appears in the trace iff
size ≥ 32, the diagonal strokes (lines painted with the bright accent pen
RGB 0,255,65) appear iff size ≥ 48, the corner brackets (lines painted with
the darker pen RGB 0,200,50) appear iff size ≥ 64 — the nested conditional
structure does not change the effective thresholds — and when diagonals are
present the first line command precedes the ellipse in the trace. -/
theorem ornament_thresholds (size : Nat) (h : 1 ≤ size) :
    ((create_matrix_icon_pixmap size).ops.any isEllipseOp = true ↔ 32 ≤ size) ∧
    (penLines (create_matrix_icon_pixmap size) ⟨0, 255, 65⟩ ≠ [] ↔ 48 ≤ size) ∧
    (penLines (create_matrix_icon_pixmap size) ⟨0, 200, 50⟩ ≠ [] ↔ 64 ≤ size) ∧
    (48 ≤ size →
      (create_matrix_icon_pixmap size).ops.findIdx isLineOp <
        (create_matrix_icon_pixmap size).ops.findIdx isEllipseOp) := by
  by_cases h32 : 32 ≤ size
  · by_cases h48 : 48 ≤ size
    · by_cases h64 : 64 ≤ size
      · simp [create_matrix_icon_pixmap, penLines, linesWithPen, isEllipseOp, isLineOp,
              h32, h48, h64, List.findIdx_cons]
      · simp [create_matrix_icon_pixmap, penLines, linesWithPen, isEllipseOp, isLineOp,
              h32, h48, h64, List.findIdx_cons]
    · have h64 : ¬ 64 ≤ size := by omega
      simp [create_matrix_icon_pixmap, penLines, linesWithPen, isEllipseOp, isLineOp,
            h32, h48, h64, List.findIdx_cons]
  · have h48 : ¬ 48 ≤ size := by omega
    have h64 : ¬ 64 ≤ size := by omega
    simp [create_matrix_icon_pixmap, penLines, linesWithPen, isEllipseOp, isLineOp,
          h32, h48, h64, List.findIdx_cons]

/-- Witness for C5, at size 64 (dot, diagonals and brackets all present,
diagonals painted before the dot). -/
theorem ornament_thresholds_witness :
    1 ≤ 64 ∧
    (((create_matrix_icon_pixmap 64).ops.any isEllipseOp = true ↔ 32 ≤ 64) ∧
    (penLines (create_matrix_icon_pixmap 64) ⟨0, 255, 65⟩ ≠ [] ↔ 48 ≤ 64) ∧
    (penLines (create_matrix_icon_pixmap 64) ⟨0, 200, 50⟩ ≠ [] ↔ 64 ≤ 64) ∧
    (48 ≤ 64 →
      (create_matrix_icon_pixmap 64).ops.findIdx isLineOp <
        (create_matrix_icon_pixmap 64).ops.findIdx isEllipseOp)) :=
  ⟨by decide, ornament_thresholds 64 (by decide)⟩

/-- C4, counterexample: at size 64 the claim's arm length size / 4 = 16 is
wrong — the top-left horizontal bracket arm is the line from (4,4) to
(16,4), of length 12, because the code draws each arm from the inset
coordinate size / 16 to the absolute coordinate size / 4. -/
theorem corner_arm_length_counterexample :
    DrawOp.drawLine 4 4 16 4 ∈ penLines (create_matrix_icon_pixmap 64) ⟨0, 200, 50⟩ ∧
    lineLength (DrawOp.drawLine 4 4 16 4) = 12 ∧
    64 / 4 = 16 ∧ (12 : Nat) ≠ 16 := by
  decide

/-- C4, amended: for every size ≥ 64 the trace contains exactly eight
corner strokes painted with the darker pen RGB 0,200,50, two per corner,
each axis-aligned arm running along an edge from the inset coordinate
size / 16 to the absolute coordinate size / 4 (or the mirrored
coordinates), so each arm has drawn length size / 4 - size / 16. -/
theorem corner_bracket_strokes (size : Nat) (h : 64 ≤ size) :
    penLines (create_matrix_icon_pixmap size) ⟨0, 200, 50⟩ =
      [DrawOp.drawLine ((size / 16 : Nat) : Int) ((size / 16 : Nat) : Int)
         ((size / 4 : Nat) : Int) ((size / 16 : Nat) : Int),
       DrawOp.drawLine ((size / 16 : Nat) : Int) ((size / 16 : Nat) : Int)
         ((size / 16 : Nat) : Int) ((size / 4 : Nat) : Int),
       DrawOp.drawLine ((size : Int) - ((size / 16 : Nat) : Int)) ((size / 16 : Nat) : Int)
         ((size : Int) - ((size / 4 : Nat) : Int)) ((size / 16 : Nat) : Int),
       DrawOp.drawLine ((size : Int) - ((size / 16 : Nat) : Int)) ((size / 16 : Nat) : Int)
         ((size : Int) - ((size / 16 : Nat) : Int)) ((size / 4 : Nat) : Int),
       DrawOp.drawLine ((size / 16 : Nat) : Int) ((size : Int) - ((size / 16 : Nat) : Int))
         ((size / 4 : Nat) : Int) ((size : Int) - ((size / 16 : Nat) : Int)),
       DrawOp.drawLine ((size / 16 : Nat) : Int) ((size : Int) - ((size / 16 : Nat) : Int))
         ((size / 16 : Nat) : Int) ((size : Int) - ((size / 4 : Nat) : Int)),
       DrawOp.drawLine ((size : Int) - ((size / 16 : Nat) : Int))
         ((size : Int) - ((size / 16 : Nat) : Int))
         ((size : Int) - ((size / 4 : Nat) : Int)) ((size : Int) - ((size / 16 : Nat) : Int)),
       DrawOp.drawLine ((size : Int) - ((size / 16 : Nat) : Int))
         ((size : Int) - ((size / 16 : Nat) : Int))
         ((size : Int) - ((size / 16 : Nat) : Int)) ((size : Int) - ((size / 4 : Nat) : Int))] ∧
    (∀ op ∈ penLines (create_matrix_icon_pixmap size) ⟨0, 200, 50⟩,
      lineLength op = size / 4 - size / 16) := by
  have h32 : 32 ≤ size := by omega
  have h48 : 48 ≤ size := by omega
  constructor
  · simp [create_matrix_icon_pixmap, penLines, linesWithPen, h32, h48, h]
  · intro op hop
    simp [create_matrix_icon_pixmap, penLines, linesWithPen, h32, h48, h] at hop
    rcases hop with h1 | h1 | h1 | h1 | h1 | h1 | h1 | h1 <;> subst h1 <;>
      simp [lineLength] <;> omega

/-- Witness for C4's amended statement, at size 64. -/
theorem corner_bracket_strokes_witness :
    64 ≤ 64 ∧
    (penLines (create_matrix_icon_pixmap 64) ⟨0, 200, 50⟩ =
      [DrawOp.drawLine ((64 / 16 : Nat) : Int) ((64 / 16 : Nat) : Int)
         ((64 / 4 : Nat) : Int) ((64 / 16 : Nat) : Int),
       DrawOp.drawLine ((64 / 16 : Nat) : Int) ((64 / 16 : Nat) : Int)
         ((64 / 16 : Nat) : Int) ((64 / 4 : Nat) : Int),
       DrawOp.drawLine (((64 : Nat) : Int) - ((64 / 16 : Nat) : Int)) ((64 / 16 : Nat) : Int)
         (((64 : Nat) : Int) - ((64 / 4 : Nat) : Int)) ((64 / 16 : Nat) : Int),
       DrawOp.drawLine (((64 : Nat) : Int) - ((64 / 16 : Nat) : Int)) ((64 / 16 : Nat) : Int)
         (((64 : Nat) : Int) - ((64 / 16 : Nat) : Int)) ((64 / 4 : Nat) : Int),
       DrawOp.drawLine ((64 / 16 : Nat) : Int) (((64 : Nat) : Int) - ((64 / 16 : Nat) : Int))
         ((64 / 4 : Nat) : Int) (((64 : Nat) : Int) - ((64 / 16 : Nat) : Int)),
       DrawOp.drawLine ((64 / 16 : Nat) : Int) (((64 : Nat) : Int) - ((64 / 16 : Nat) : Int))
         ((64 / 16 : Nat) : Int) (((64 : Nat) : Int) - ((64 / 4 : Nat) : Int)),
       DrawOp.drawLine (((64 : Nat) : Int) - ((64 / 16 : Nat) : Int))
         (((64 : Nat) : Int) - ((64 / 16 : Nat) : Int))
         (((64 : Nat) : Int) - ((64 / 4 : Nat) : Int))
         (((64 : Nat) : Int) - ((64 / 16 : Nat) : Int)),
       DrawOp.drawLine (((64 : Nat) : Int) - ((64 / 16 : Nat) : Int))
         (((64 : Nat) : Int) - ((64 / 16 : Nat) : Int))
         (((64 : Nat) : Int) - ((64 / 16 : Nat) : Int))
         (((64 : Nat) : Int) - ((64 / 4 : Nat) : Int))] ∧
    (∀ op ∈ penLines (create_matrix_icon_pixmap 64) ⟨0, 200, 50⟩,
      lineLength op = 64 / 4 - 64 / 16)) :=
  ⟨by decide, corner_bracket_strokes 64 (by decide)⟩

/-- A filesystem path as used by the source through `pathlib.Path`:
parent directory, stem and extension. -/
structure PyPath where
  dir : String
  stem : String
  ext : String
  deriving DecidableEq, Repr

/-- `Path.with_suffix(s)`: replace the extension. -/
def PyPath.with_suffix (p : PyPath) (s : String) : PyPath := { p with ext := s }

/-- `str(path)`. -/
def PyPath.toStr (p : PyPath) : String := p.dir ++ "/" ++ p.stem ++ p.ext

/-- `path.parent`, as a string. -/
def PyPath.parent (p : PyPath) : String := p.dir

/-- A PIL image as produced in `create_ico_file` by
`Image.frombuffer('RGBA', (width, height), arr, 'raw', 'BGRA', 0, 1)`:
the conversion keeps the pixmap's dimensions. -/
structure PILImage where
  mode : String
  width : Nat
  height : Nat
  deriving DecidableEq, Repr, Inhabited

/-- The QPixmap → QImage → bytes → `PIL.Image` conversion of
`create_ico_file` (source lines 86-92). -/
def pixmapToPIL (p : Pixmap) : PILImage :=
  { mode := "RGBA", width := p.width, height := p.height }

/-- The optional capabilities of the executing environment, probed by the
source at run time: whether `from PIL import Image` succeeds, whether the
ICO save call raises, whether `shutil.which('iconutil')` finds the tool,
whether the `iconutil` subprocess exits zero, whether the 1024-pixel PNG
save in `create_icns_file` raises, and the text of the raised exception. -/
structure Env where
  pillowAvailable : Bool
  icoSaveRaises : Bool
  iconutilOnPath : Bool
  iconutilExitZero : Bool
  icnsPngSaveRaises : Bool
  exnText : String
  deriving DecidableEq, Repr

/-- One observable I/O action of the packagers, in program order.  A
`savePng` / `saveIco` effect records that the corresponding `.save` call
was invoked with those arguments. -/
inductive Effect where
  | printMsg (msg : String)
  | savePng (path : String) (image : Pixmap)
  | saveIco (path : String) (image : PILImage) (sizes : List (Nat × Nat))
  | mkdirP (path : String)
  | whichProbe (cmd : String)
  | runProcess (args : List String)
  | rmtreeDir (path : String)
  deriving DecidableEq, Repr

/-- The Windows size list `sizes = [16, 32, 48, 64, 128, 256]`
(source line 81). -/
def ico_sizes : List Nat := [16, 32, 48, 64, 128, 256]

/-- `create_ico_file(output_path)` (source lines 73-111).  With Pillow
available it renders the six sizes, converts them to PIL images, and calls
`images[0].save(str(output_path), format='ICO', sizes=[(s, s) for s in
sizes])` — note that only the first (16 × 16) image is passed to the
encoder; `images[1:]` are never used.  Without Pillow it prints two
warnings, saves a single 256-pixel render as PNG at the path with the
extension changed to `.png`, prints two more messages, and returns False.
An exception in the save call is caught and reported, returning False. -/
def create_ico_file (env : Env) (output_path : PyPath) : Bool × List Effect :=
  if env.pillowAvailable then
    let images : List PILImage :=
      ico_sizes.map fun size => pixmapToPIL (create_matrix_icon_pixmap size)
    let save := Effect.saveIco output_path.toStr images.headI
      (ico_sizes.map fun s => (s, s))
    if env.icoSaveRaises then
      (false, [save, Effect.printMsg ("保存图标失败: " ++ env.exnText)])
    else
      (true, [save, Effect.printMsg ("✓ 已生成 ICO 图标: " ++ output_path.toStr)])
  else
    let png_path := output_path.with_suffix ".png"
    let largest_pixmap := create_matrix_icon_pixmap 256
    (false,
      [Effect.printMsg "警告: 未安装 Pillow，将生成 PNG 文件",
       Effect.printMsg "安装 Pillow: pip install Pillow",
       Effect.savePng png_path.toStr largest_pixmap,
       Effect.printMsg ("已生成 PNG 图标: " ++ png_path.toStr),
       Effect.printMsg "提示: 可以使用在线工具将 PNG 转换为 ICO 文件"])

/-- The macOS staged slot table `sizes = {...}` (source lines 136-147), in
insertion order: canonical slot filename and pixel size. -/
def icns_sizes : List (String × Nat) :=
  [("icon_16x16.png", 16), ("icon_16x16@2x.png", 32), ("icon_32x32.png", 32),
   ("icon_32x32@2x.png", 64), ("icon_128x128.png", 128), ("icon_128x128@2x.png", 256),
   ("icon_256x256.png", 256), ("icon_256x256@2x.png", 512), ("icon_512x512.png", 512),
   ("icon_512x512@2x.png", 1024)]

/-- `iconset_dir = output_path.parent / 'app_icon.iconset'`
(source line 132). -/
def iconset_dir_of (output_path : PyPath) : String :=
  output_path.parent ++ "/app_icon.iconset"

/-- `create_icns_file(output_path)` (source lines 114-169).  It always
first saves a 1024-pixel render as PNG at the path with extension `.png`
and prints two messages; then probes for `iconutil`.  If absent it returns
False with no further effect.  If present it creates the staging
directory, writes the ten staged slot files, runs `iconutil -c icns
<staging> -o <output>`; on exit zero it prints success, removes the
staging directory and returns True, on non-zero exit it prints a failure
message (leaving the staging directory) and returns False.  An exception
is caught and reported, returning False. -/
def create_icns_file (env : Env) (output_path : PyPath) : Bool × List Effect :=
  let png_path := output_path.with_suffix ".png"
  let save1024 := Effect.savePng png_path.toStr (create_matrix_icon_pixmap 1024)
  if env.icnsPngSaveRaises then
    (false, [save1024, Effect.printMsg ("生成图标失败: " ++ env.exnText)])
  else
    let step1 : List Effect :=
      [save1024,
       Effect.printMsg ("✓ 已生成 PNG 图标: " ++ png_path.toStr),
       Effect.printMsg "提示: PyInstaller 可以使用 PNG 图标，或使用 iconutil 转换为 .icns"]
    if env.iconutilOnPath then
      let iconset_dir := iconset_dir_of output_path
      let staging : List Effect :=
        Effect.mkdirP iconset_dir ::
          icns_sizes.map fun fs =>
            Effect.savePng (iconset_dir ++ "/" ++ fs.1) (create_matrix_icon_pixmap fs.2)
      let run := Effect.runProcess
        ["iconutil", "-c", "icns", iconset_dir, "-o", output_path.toStr]
      if env.iconutilExitZero then
        (true, step1 ++ [Effect.whichProbe "iconutil"] ++ staging ++
          [run, Effect.printMsg ("✓ 已生成 ICNS 图标: " ++ output_path.toStr),
           Effect.rmtreeDir iconset_dir])
      else
        (false, step1 ++ [Effect.whichProbe "iconutil"] ++ staging ++
          [run, Effect.printMsg "iconutil 转换失败，使用 PNG 图标"])
    else
      (false, step1 ++ [Effect.whichProbe "iconutil"])

/-- C1, evaluated at the failing input (Pillow available, output path
./app_icon.ico): the pillow branch renders six images but the single ICO
save call receives only the first of them — a 16 × 16 image — together
with the six size hints; the other five rendered images appear in no
effect, so the encoder is never given all six images. -/
theorem ico_encoder_receives_only_first_image :
    (create_ico_file
        { pillowAvailable := true, icoSaveRaises := false, iconutilOnPath := false,
          iconutilExitZero := false, icnsPngSaveRaises := false, exnText := "" }
        { dir := ".", stem := "app_icon", ext := ".ico" }).snd =
      [Effect.saveIco "./app_icon.ico" { mode := "RGBA", width := 16, height := 16 }
          [(16, 16), (32, 32), (48, 48), (64, 64), (128, 128), (256, 256)],
       Effect.printMsg "✓ 已生成 ICO 图标: ./app_icon.ico"] ∧
    (ico_sizes.map fun size => pixmapToPIL (create_matrix_icon_pixmap size)).length = 6 ∧
    (ico_sizes.map fun size => pixmapToPIL (create_matrix_icon_pixmap size)).headI =
      { mode := "RGBA", width := 16, height := 16 } :=
  ⟨rfl, rfl, rfl⟩

/-- C2, counterexample: the Pillow-missing fallback branch returns False,
exactly the same terminal indicator as the error branch (here: Pillow
available but the save call raising), so the fallback's returned outcome
is not distinguishable from the Failure outcome. -/
theorem fallback_return_matches_error_return :
    (create_ico_file
        { pillowAvailable := false, icoSaveRaises := false, iconutilOnPath := false,
          iconutilExitZero := false, icnsPngSaveRaises := false, exnText := "" }
        { dir := ".", stem := "app_icon", ext := ".ico" }).fst = false ∧
    (create_ico_file
        { pillowAvailable := true, icoSaveRaises := true, iconutilOnPath := false,
          iconutilExitZero := false, icnsPngSaveRaises := false, exnText := "disk full" }
        { dir := ".", stem := "app_icon", ext := ".ico" }).fst = false ∧
    (create_ico_file
        { pillowAvailable := false, icoSaveRaises := false, iconutilOnPath := false,
          iconutilExitZero := false, icnsPngSaveRaises := false, exnText := "" }
        { dir := ".", stem := "app_icon", ext := ".ico" }).fst =
      (create_ico_file
        { pillowAvailable := true, icoSaveRaises := true, iconutilOnPath := false,
          iconutilExitZero := false, icnsPngSaveRaises := false, exnText := "disk full" }
        { dir := ".", stem := "app_icon", ext := ".ico" }).fst :=
  ⟨rfl, rfl, rfl⟩

/-- C2, amended: when Pillow is unavailable, `create_ico_file` writes a
single 256 × 256 render as a standalone PNG at the output path with the
extension changed to `.png` and returns False, signalling that the
preferred container was not produced; this returned indicator is the same
False the error branch returns, so the two outcomes are distinguishable
only by their printed messages, not by the return value. -/
theorem pillow_fallback_writes_png_returns_false
    (b1 b2 b3 b4 : Bool) (ex : String) (p : PyPath) :
    create_ico_file
        { pillowAvailable := false, icoSaveRaises := b1, iconutilOnPath := b2,
          iconutilExitZero := b3, icnsPngSaveRaises := b4, exnText := ex } p =
      (false,
        [Effect.printMsg "警告: 未安装 Pillow，将生成 PNG 文件",
         Effect.printMsg "安装 Pillow: pip install Pillow",
         Effect.savePng (p.with_suffix ".png").toStr (create_matrix_icon_pixmap 256),
         Effect.printMsg ("已生成 PNG 图标: " ++ (p.with_suffix ".png").toStr),
         Effect.printMsg "提示: 可以使用在线工具将 PNG 转换为 ICO 文件"]) ∧
    (create_matrix_icon_pixmap 256).width = 256 ∧
    (create_matrix_icon_pixmap 256).height = 256 ∧
    (p.with_suffix ".png").ext = ".png" ∧
    (create_ico_file
        { pillowAvailable := true, icoSaveRaises := true, iconutilOnPath := b2,
          iconutilExitZero := b3, icnsPngSaveRaises := b4, exnText := ex } p).fst = false :=
  ⟨rfl, rfl, rfl, rfl, rfl⟩

/-- C7: in every environment and for every output path, the very first
effect of `create_icns_file` is saving a freshly rendered 1024 × 1024
image as PNG at the requested path with the extension forced to `.png` —
independent of whether `iconutil` is available or succeeds, and even when
that save call itself raises. -/
theorem icns_png_always_first (env : Env) (p : PyPath) :
    ∃ rest,
      (create_icns_file env p).snd =
        Effect.savePng (p.with_suffix ".png").toStr (create_matrix_icon_pixmap 1024) :: rest ∧
      (create_matrix_icon_pixmap 1024).width = 1024 ∧
      (create_matrix_icon_pixmap 1024).height = 1024 ∧
      (p.with_suffix ".png").ext = ".png" := by
  rcases env with ⟨pa, isr, iop, iez, ipr, ex⟩
  cases ipr <;> cases iop <;> cases iez <;> exact ⟨_, rfl, rfl, rfl, rfl⟩

/-- C8: when `iconutil` is on the PATH and the conversion exits zero,
`create_icns_file` — after the unconditional PNG step — creates the
staging directory, writes exactly the ten canonical slot files at pixel
sizes (16, 32, 32, 64, 128, 256, 256, 512, 512, 1024), invokes
`iconutil -c icns <staging> -o <output>`, prints success, removes the
staging directory last, and returns True. -/
theorem icns_full_success_trace (pa isr : Bool) (ex : String) (p : PyPath) :
    create_icns_file
        { pillowAvailable := pa, icoSaveRaises := isr, iconutilOnPath := true,
          iconutilExitZero := true, icnsPngSaveRaises := false, exnText := ex } p =
      (true,
        [Effect.savePng (p.with_suffix ".png").toStr (create_matrix_icon_pixmap 1024),
         Effect.printMsg ("✓ 已生成 PNG 图标: " ++ (p.with_suffix ".png").toStr),
         Effect.printMsg "提示: PyInstaller 可以使用 PNG 图标，或使用 iconutil 转换为 .icns",
         Effect.whichProbe "iconutil",
         Effect.mkdirP (iconset_dir_of p),
         Effect.savePng (iconset_dir_of p ++ "/" ++ "icon_16x16.png")
           (create_matrix_icon_pixmap 16),
         Effect.savePng (iconset_dir_of p ++ "/" ++ "icon_16x16@2x.png")
           (create_matrix_icon_pixmap 32),
         Effect.savePng (iconset_dir_of p ++ "/" ++ "icon_32x32.png")
           (create_matrix_icon_pixmap 32),
         Effect.savePng (iconset_dir_of p ++ "/" ++ "icon_32x32@2x.png")
           (create_matrix_icon_pixmap 64),
         Effect.savePng (iconset_dir_of p ++ "/" ++ "icon_128x128.png")
           (create_matrix_icon_pixmap 128),
         Effect.savePng (iconset_dir_of p ++ "/" ++ "icon_128x128@2x.png")
           (create_matrix_icon_pixmap 256),
         Effect.savePng (iconset_dir_of p ++ "/" ++ "icon_256x256.png")
           (create_matrix_icon_pixmap 256),
         Effect.savePng (iconset_dir_of p ++ "/" ++ "icon_256x256@2x.png")
           (create_matrix_icon_pixmap 512),
         Effect.savePng (iconset_dir_of p ++ "/" ++ "icon_512x512.png")
           (create_matrix_icon_pixmap 512),
         Effect.savePng (iconset_dir_of p ++ "/" ++ "icon_512x512@2x.png")
           (create_matrix_icon_pixmap 1024),
         Effect.runProcess ["iconutil", "-c", "icns", iconset_dir_of p, "-o", p.toStr],
         Effect.printMsg ("✓ 已生成 ICNS 图标: " ++ p.toStr),
         Effect.rmtreeDir (iconset_dir_of p)]) ∧
    icns_sizes.map Prod.snd = [16, 32, 32, 64, 128, 256, 256, 512, 512, 1024] ∧
    (∀ fs ∈ icns_sizes, (create_matrix_icon_pixmap fs.2).width = fs.2 ∧
      (create_matrix_icon_pixmap fs.2).height = fs.2) := by
  exact ⟨rfl, rfl, by decide⟩

/-- C9, counterexample: when `iconutil` is not on the PATH,
`create_icns_file` returns False with the availability probe as the very
last effect — the unavailable branch itself prints nothing, so its
non-container outcome is not reported by any printed message (the only
prints in the trace are the unconditional PNG-step messages, issued before
the probe). -/
theorem iconutil_unavailable_prints_nothing :
    (create_icns_file
        { pillowAvailable := true, icoSaveRaises := false, iconutilOnPath := false,
          iconutilExitZero := false, icnsPngSaveRaises := false, exnText := "" }
        { dir := ".", stem := "app_icon", ext := ".icns" }).fst = false ∧
    (create_icns_file
        { pillowAvailable := true, icoSaveRaises := false, iconutilOnPath := false,
          iconutilExitZero := false, icnsPngSaveRaises := false, exnText := "" }
        { dir := ".", stem := "app_icon", ext := ".icns" }).snd =
      [Effect.savePng "./app_icon.png" (create_matrix_icon_pixmap 1024),
       Effect.printMsg "✓ 已生成 PNG 图标: ./app_icon.png",
       Effect.printMsg "提示: PyInstaller 可以使用 PNG 图标，或使用 iconutil 转换为 .icns",
       Effect.whichProbe "iconutil"] ∧
    (create_icns_file
        { pillowAvailable := true, icoSaveRaises := false, iconutilOnPath := false,
          iconutilExitZero := false, icnsPngSaveRaises := false, exnText := "" }
        { dir := ".", stem := "app_icon", ext := ".icns" }).snd.getLast? =
      some (Effect.whichProbe "iconutil") := by
  exact ⟨rfl, by decide, by decide⟩

/-- C9, amended: every failure or degraded branch of the packagers except
the `iconutil`-unavailable branch prints an outcome message — the failed
`iconutil` conversion, the caught exception in `create_icns_file`, the
Pillow-missing fallback and the caught exception in `create_ico_file` all
print; the `iconutil`-unavailable branch alone returns False without any
message of its own, only the unconditional PNG-step messages preceding the
probe. -/
theorem degraded_branches_print (pa isr : Bool) (ex : String) (p : PyPath) :
    Effect.printMsg "iconutil 转换失败，使用 PNG 图标" ∈
      (create_icns_file
        { pillowAvailable := pa, icoSaveRaises := isr, iconutilOnPath := true,
          iconutilExitZero := false, icnsPngSaveRaises := false, exnText := ex } p).snd ∧
    Effect.printMsg ("生成图标失败: " ++ ex) ∈
      (create_icns_file
        { pillowAvailable := pa, icoSaveRaises := isr, iconutilOnPath := true,
          iconutilExitZero := true, icnsPngSaveRaises := true, exnText := ex } p).snd ∧
    Effect.printMsg "警告: 未安装 Pillow，将生成 PNG 文件" ∈
      (create_ico_file
        { pillowAvailable := false, icoSaveRaises := isr, iconutilOnPath := true,
          iconutilExitZero := false, icnsPngSaveRaises := false, exnText := ex } p).snd ∧
    Effect.printMsg ("保存图标失败: " ++ ex) ∈
      (create_ico_file
        { pillowAvailable := true, icoSaveRaises := true, iconutilOnPath := true,
          iconutilExitZero := false, icnsPngSaveRaises := false, exnText := ex } p).snd ∧
    ((create_icns_file
        { pillowAvailable := pa, icoSaveRaises := isr, iconutilOnPath := false,
          iconutilExitZero := false, icnsPngSaveRaises := false, exnText := ex } p).fst = false ∧
     (create_icns_file
        { pillowAvailable := pa, icoSaveRaises := isr, iconutilOnPath := false,
          iconutilExitZero := false, icnsPngSaveRaises := false, exnText := ex } p).snd =
       [Effect.savePng (p.with_suffix ".png").toStr (create_matrix_icon_pixmap 1024),
        Effect.printMsg ("✓ 已生成 PNG 图标: " ++ (p.with_suffix ".png").toStr),
        Effect.printMsg "提示: PyInstaller 可以使用 PNG 图标，或使用 iconutil 转换为 .icns",
        Effect.whichProbe "iconutil"]) := by
  refine ⟨?_, ?_, ?_, ?_, rfl, rfl⟩ <;>
    simp [create_icns_file, create_ico_file, icns_sizes]
